import Mathlib

/-!
Shallow embedding of the offline write-buffer module
(`app/backend/helpers/buffer.py`) of the repair-management system.

Dicts (Python payloads and table rows) are modelled as insertion-ordered
association lists of string keys to scalar values; the JSON queue file is
modelled at the level of parse results (text that `json.loads` rejects
versus a parsed array of flat objects, the only shape `_save_buffer`
writes); the sqlite connection is modelled as an explicit store state
with column introspection, rows, an optional `audit_log` table, and a
contention flag making `INSERT INTO cases` report `database is locked`
(mirroring the contention harness used by the repository's own tests).
`with conn:` transaction blocks commit on success and roll back on error.
-/

namespace Buffer

/-- Scalar Python values appearing in buffer payloads and table cells. -/
inductive Val where
  | none
  | str (s : String)
  | int (n : Int)
deriving DecidableEq

/-- Python truthiness for the modelled scalars (`None`, `""` and `0` are falsy). -/
def Val.truthy : Val → Bool
  | .none => false
  | .str s => !(s == "")
  | .int n => !(n == 0)

/-- Python `a or b`: `a` if truthy, else `b`. -/
def pyOr (a b : Val) : Val :=
  if a.truthy then a else b

/-- A Python dict: insertion-ordered association list. -/
abbrev Dict := List (String × Val)

/-- `d.get(k)`: value of the first binding of `k`, `None` when absent. -/
def dget : Dict → String → Val
  | [], _ => .none
  | (k', v) :: rest, k => if k' = k then v else dget rest k

/-- `k in d`. -/
def dmem : Dict → String → Bool
  | [], _ => false
  | (k', _) :: rest, k => if k' = k then true else dmem rest k

/-- `d[k] = v`: replace the first binding in place, else append (dict insertion order). -/
def dset : Dict → String → Val → Dict
  | [], k, v => [(k, v)]
  | (k', v') :: rest, k, v =>
      if k' = k then (k, v) :: rest else (k', v') :: dset rest k v

/-- Contents of the queue file as seen by `json.loads`: either text it
rejects, or a parsed JSON array of flat objects — the only document shape
`_save_buffer` ever writes (and the shape every claim exercises). -/
inductive FileContent where
  | invalid (raw : String)
  | entriesDoc (es : List Dict)
deriving DecidableEq

/-- File-system state at the buffer path: the live `buffer_queue.json`
and the quarantine file `buffer_queue.json.bak`. -/
structure FS where
  live : Option FileContent
  bak : Option FileContent
deriving DecidableEq

/-- `_load_buffer`: missing file gives `[]`; unparsable text is renamed to
the `.json.bak` quarantine path and `[]` is returned; parsable content is
returned as-is (no digest exists or is checked). -/
def _load_buffer (fs : FS) : List Dict × FS :=
  match fs.live with
  | Option.none => ([], fs)
  | some (.entriesDoc es) => (es, fs)
  | some (.invalid raw) => ([], { live := Option.none, bak := some (.invalid raw) })

/-- `_save_buffer`: atomically replaces the live file with the JSON array
of `entries` (temp file + fsync + rename collapse to one replacement). -/
def _save_buffer (entries : List Dict) (fs : FS) : FS :=
  { fs with live := some (.entriesDoc entries) }

/-- `_normalize_entry`: for `insert_case` with falsy `created_by`, set
`created_by` to `submitter or username or user or owner` (Python `or`
chain: first truthy value, else the value of the last operand). -/
def _normalize_entry (entry : Dict) : Dict :=
  if dget entry "type" = .str "insert_case" then
    if (dget entry "created_by").truthy then entry
    else
      dset entry "created_by"
        (pyOr (dget entry "submitter")
          (pyOr (dget entry "username")
            (pyOr (dget entry "user") (dget entry "owner"))))
  else entry

/-- One statement issued against the sqlite connection. -/
inductive Op where
  | introspectCases
  | tableExists (name : String)
  | insertCases (cols : List String) (vals : List Val)
  | updateCases (setCols : List String) (vals : List Val) (id : Val)
  | deleteCases (id : Val)
  | insertAudit (cols : List String) (vals : List Val)
deriving DecidableEq

/-- The sqlite store: columns of `cases` (PRAGMA table_info), the subset
of them declared NOT NULL (`clinic`, `device_name`, `status` in the
repository schema), its rows, the optional `audit_log` table (columns and
rows; `none` = table absent), and a contention flag under which
`INSERT INTO cases` raises `database is locked` — the same fault the
repository's test harness injects — while other statements proceed.
NOT NULL is enforced when an INSERT executes, and when an UPDATE matches
a row; CHECK constraints and column defaults are not modelled: the
insert branch always lists every existing column explicitly, so defaults
never apply, and an explicit NULL status is caught by NOT NULL before
the status CHECK, which treats NULL as passing. -/
structure DB where
  casesCols : List String
  notNullCols : List String
  cases : List Dict
  auditCols : Option (List String)
  audit : List Dict
  insertLocked : Bool
deriving DecidableEq

deriving instance DecidableEq for Except

/-- Result of `_apply_buffer_entry`: outcome, post-call store state
(rolled back to the pre-call state on error), and the statements issued. -/
structure ApplyOut where
  res : Except String Unit
  db : DB
  ops : List Op
deriving DecidableEq

/-- Device-column resolution of the insert branch: `device_name` if that
column exists, else `device`, else none. -/
def _device_col (cols : List String) : Option String :=
  if cols.contains "device_name" then some "device_name"
  else if cols.contains "device" then some "device"
  else Option.none

/-- The `desired_order` list of (column, payload key) pairs of the insert
branch, with the resolved device column in second position. -/
def _desired_order (devcol : String) : List (String × String) :=
  [("clinic", "clinic"), (devcol, "device_name"), ("wave_number", "wave_number"),
   ("submitter", "submitter"), ("service_provider", "service_provider"),
   ("status", "status"), ("reason", "reason"), ("date_submitted", "date_submitted"),
   ("date_returned", "date_returned"), ("notes", "notes"), ("created_by", "created_by")]

/-- Filter `desired_order` to existing columns, collecting values; the
device column reads `device_name` and falls back to `device` when that
value `is None`. -/
def _insert_cols_vals (cols : List String) (devcol : String) (e : Dict) :
    List String × List Val :=
  let pairs := (_desired_order devcol).filterMap (fun p =>
    if cols.contains p.1 then
      some (p.1,
        if p.1 = devcol then
          (if dget e "device_name" = Val.none then dget e "device" else dget e "device_name")
        else dget e p.2)
    else Option.none)
  (pairs.map (fun q => q.1), pairs.map (fun q => q.2))

/-- Apply the pairs of a `SET` clause to one row. -/
def updRow (row : Dict) (pairs : List (String × Val)) : Dict :=
  pairs.foldl (fun r p => dset r p.1 p.2) row

/-- `_apply_buffer_entry`: applies one queue entry to the store.
Normalizes a copy, dispatches on `type`; each mutating branch runs in one
`with conn:` transaction that rolls back on error.  Executing an INSERT
(or an UPDATE that matches a row) with a NULL value for a NOT NULL column
raises sqlite's `IntegrityError`, whose message names the first such
column in statement order.  Error strings model `str(ex)` (the `KeyError`
message is modelled without Python's quoting, and the unknown-type
message without the interpolated value — only the busy/locked
classification of messages is consumed downstream). -/
def _apply_buffer_entry (db : DB) (entry0 : Dict) : ApplyOut :=
  let e := _normalize_entry entry0
  if dget e "type" = .str "insert_case" then
    let cols := db.casesCols
    match _device_col cols with
    | Option.none =>
        ⟨.error "Tabelle cases hat weder device_name noch device.", db, [Op.introspectCases]⟩
    | some devcol =>
        let cv := _insert_cols_vals cols devcol e
        if cv.1.isEmpty then
          ⟨.error "Kein geeignetes Spaltenziel fuer INSERT gefunden.", db, [Op.introspectCases]⟩
        else if db.insertLocked then
          ⟨.error "database is locked", db, [Op.introspectCases, Op.insertCases cv.1 cv.2]⟩
        else
          match (List.zip cv.1 cv.2).find?
              (fun p => db.notNullCols.contains p.1 && decide (p.2 = Val.none)) with
          | some p =>
              ⟨.error ("NOT NULL constraint failed: cases." ++ p.1), db,
                [Op.introspectCases, Op.insertCases cv.1 cv.2]⟩
          | Option.none =>
              ⟨.ok (), { db with cases := db.cases ++ [List.zip cv.1 cv.2] },
                [Op.introspectCases, Op.insertCases cv.1 cv.2]⟩
  else if dget e "type" = .str "update_case" then
    let cols := db.casesCols
    let s1 : List (String × Val) :=
      if cols.contains "status" && dmem e "status" then [("status", dget e "status")] else []
    let s2 : List (String × Val) :=
      if cols.contains "date_returned" && dmem e "date_returned" then
        [("date_returned", dget e "date_returned")] else []
    let s3 : List (String × Val) :=
      if cols.contains "closed_by" && !(dget e "closed_by" = Val.none) then
        [("closed_by", dget e "closed_by")] else []
    let setPairs := s1 ++ s2 ++ s3
    if setPairs.isEmpty then
      ⟨.ok (), db, [Op.introspectCases]⟩
    else if dmem e "id" then
      let idv := dget e "id"
      let hit := if db.cases.any (fun row => decide (dget row "id" = idv)) then
          setPairs.find? (fun p => db.notNullCols.contains p.1 && decide (p.2 = Val.none))
        else Option.none
      match hit with
      | some p =>
          ⟨.error ("NOT NULL constraint failed: cases." ++ p.1), db,
            [Op.introspectCases,
              Op.updateCases (setPairs.map (fun q => q.1)) (setPairs.map (fun q => q.2)) idv]⟩
      | Option.none =>
          ⟨.ok (),
            { db with cases := db.cases.map (fun row =>
                if dget row "id" = idv then updRow row setPairs else row) },
            [Op.introspectCases,
              Op.updateCases (setPairs.map (fun q => q.1)) (setPairs.map (fun q => q.2)) idv]⟩
    else
      ⟨.error "id", db, [Op.introspectCases]⟩
  else if dget e "type" = .str "delete_case" then
    if dmem e "id" then
      let caseId := dget e "id"
      let afterDel := db.cases.filter (fun row => decide (¬ dget row "id" = caseId))
      match db.auditCols with
      | Option.none =>
          ⟨.ok (), { db with cases := afterDel },
            [Op.deleteCases caseId, Op.tableExists "audit_log"]⟩
      | some acols =>
          let reqCols := ["action", "entity", "entity_id", "details"]
          let vals := [Val.str "case_delete", Val.str "case", caseId, dget e "deleted_by"]
          match reqCols.find? (fun c => !acols.contains c) with
          | some c =>
              ⟨.error ("table audit_log has no column named " ++ c), db,
                [Op.deleteCases caseId, Op.tableExists "audit_log",
                 Op.insertAudit reqCols vals]⟩
          | Option.none =>
              ⟨.ok (),
                { db with cases := afterDel, audit := db.audit ++ [List.zip reqCols vals] },
                [Op.deleteCases caseId, Op.tableExists "audit_log",
                 Op.insertAudit reqCols vals]⟩
    else
      ⟨.error "id", db, []⟩
  else
    ⟨.error "Unbekannter Buffer-Typ", db, []⟩

/-- Contiguous-substring test on character lists. -/
def isSubLC (pat : List Char) : List Char → Bool
  | [] => pat.isEmpty
  | c :: rest => pat.isPrefixOf (c :: rest) || isSubLC pat rest

/-- Transient-failure classification of `sync_buffer_once`:
`"locked" in str(ex).lower() or "busy" in str(ex).lower()` (lower-casing
modelled per character; the messages involved are ASCII). -/
def _is_transient (msg : String) : Bool :=
  isSubLC "locked".toList (msg.toList.map Char.toLower) ||
  isSubLC "busy".toList (msg.toList.map Char.toLower)

/-- The entry-processing loop of `sync_buffer_once`: returns
(applied count, surviving entries in order, final store state). -/
def syncLoop (db : DB) : List Dict → Nat × List Dict × DB
  | [] => (0, [], db)
  | e :: rest =>
      let out := _apply_buffer_entry db e
      match out.res with
      | .ok _ =>
          let r := syncLoop out.db rest
          (r.1 + 1, r.2.1, r.2.2)
      | .error msg =>
          if _is_transient msg then
            (0, e :: rest, db)
          else
            let r := syncLoop out.db rest
            (r.1, e :: r.2.1, r.2.2)

/-- `sync_buffer_once`: load the queue, return `(0, 0)` on empty, else run
the loop and persist the surviving entries. -/
def sync_buffer_once (db : DB) (fs : FS) : (Nat × Nat) × DB × FS :=
  let loaded := _load_buffer fs
  if loaded.1.isEmpty then ((0, 0), db, loaded.2)
  else
    let r := syncLoop db loaded.1
    ((r.1, r.2.1.length), r.2.2, _save_buffer r.2.1 loaded.2)

/-- Program state for `enqueue_write`, tracking Python object identity:
the heap lists the dict objects alive (index = reference), alongside the
file-system state. -/
structure PState where
  heap : List Dict
  fs : FS
deriving DecidableEq

/-- Dereference a heap cell (unused references read as the empty dict). -/
def heapGet (h : List Dict) (r : Nat) : Dict := (h.get? r).getD []

/-- `enqueue_write(payload)` where `r` is the caller's reference to the
payload dict: `dict(payload)` allocates a fresh copy, `_normalize_entry`
mutates that copy in place, and the copy is appended to the loaded queue,
which is saved back. -/
def enqueue_write (r : Nat) (s : PState) : PState :=
  let rCopy := s.heap.length
  let h1 := s.heap ++ [heapGet s.heap r]
  let h2 := h1.set rCopy (_normalize_entry (heapGet h1 rCopy))
  let loaded := _load_buffer s.fs
  ⟨h2, _save_buffer (loaded.1 ++ [heapGet h2 rCopy]) loaded.2⟩

/-- The columns of the `cases` table as created by the repository's
schema (`app/backend/db/db.py`, `CREATE TABLE cases`). -/
def standardCols : List String :=
  ["id", "clinic", "device_name", "wave_number", "submitter", "service_provider",
   "status", "reason", "date_submitted", "date_returned", "created_by", "closed_by", "notes"]

/-- The NOT NULL columns of `cases` in the repository schema (`id` is the
integer primary key, for which sqlite accepts NULL as auto-assignment). -/
def standardNotNull : List String := ["clinic", "device_name", "status"]

/-- Store for the C1 scenario: two case rows, no audit table, no contention. -/
def c1db : DB :=
  ⟨standardCols, standardNotNull, [[("id", Val.int 1)], [("id", Val.int 2)]],
   Option.none, [], false⟩

def c1A : Dict := [("type", Val.str "delete_case"), ("id", Val.int 1)]

/-- An `update_case` entry with an applicable field but no `id`: applying it
raises `KeyError` (a permanent, non-busy/locked failure). -/
def c1B : Dict := [("type", Val.str "update_case"), ("status", Val.str "Abgeschlossen")]

def c1C : Dict := [("type", Val.str "delete_case"), ("id", Val.int 2)]

def c1fs : FS := ⟨some (.entriesDoc [c1A, c1B, c1C]), Option.none⟩

def c2orig : Dict := [("type", Val.str "insert_case"), ("clinic", Val.str "Neuro")]

def c2mut : Dict := [("type", Val.str "insert_case"), ("clinic", Val.str "Thorax")]

/-- The queue file after its serialized entries were mutated (still valid
JSON) without any accompanying digest update — no digest exists. -/
def c2fsT : FS := ⟨some (.entriesDoc [c2mut]), Option.none⟩

/-- Store for the C3 scenario: contention makes `INSERT INTO cases`
report `database is locked`. -/
def c3db : DB := ⟨standardCols, standardNotNull, [], Option.none, [], true⟩

/-- An `update_case` entry with nothing to set: applies as a no-op success. -/
def c3A : Dict := [("type", Val.str "update_case")]

def c3B : Dict :=
  [("type", Val.str "insert_case"), ("clinic", Val.str "Neuro"),
   ("device_name", Val.str "Endoskop")]

def c3C : Dict := [("type", Val.str "delete_case"), ("id", Val.int 7)]

def c3fs : FS := ⟨some (.entriesDoc [c3A, c3B, c3C]), Option.none⟩

def c4db : DB := ⟨standardCols, standardNotNull, [], Option.none, [], false⟩

/-- An `insert_case` entry missing both `clinic` and `device_name`. -/
def c4insert : Dict := [("type", Val.str "insert_case")]

/-- An `update_case` entry with an applicable field but missing `id`. -/
def c4update : Dict := [("type", Val.str "update_case"), ("status", Val.str "Abgeschlossen")]

/-- A `delete_case` entry missing `id`. -/
def c4delete : Dict := [("type", Val.str "delete_case")]

/-- An `insert_case` entry with no actor field and no fallback fields. -/
def c6bare : Dict := [("type", Val.str "insert_case")]

def c6sub : Dict := [("type", Val.str "insert_case"), ("submitter", Val.str "Max")]

/-- A legacy schema containing neither `status`, `date_returned` nor `closed_by`. -/
def c8db : DB := ⟨["id", "clinic"], ["clinic"], [], Option.none, [], false⟩

/-- A well-formed `update_case` entry carrying its `id` and a `status`
value; against `c8db` no field of its dynamic SET clause applies. -/
def c8e : Dict :=
  [("type", Val.str "update_case"), ("id", Val.int 5), ("status", Val.str "Abgeschlossen")]

/-- Store whose `audit_log` table exists but lacks the columns the delete
branch inserts into (legacy audit schema). -/
def c9db : DB :=
  ⟨standardCols, standardNotNull, [[("id", Val.int 1)]], some ["id", "ts", "action"], [], false⟩

def c9e : Dict :=
  [("type", Val.str "delete_case"), ("id", Val.int 1), ("deleted_by", Val.str "admin")]

/-- Program state holding one caller-owned payload dict at reference 0. -/
def c10s : PState :=
  ⟨[[("type", Val.str "insert_case"), ("submitter", Val.str "Max")]],
   ⟨Option.none, Option.none⟩⟩

end Buffer

namespace Buffer

theorem dget_dset_same (d : Dict) (k : String) (v : Val) : dget (dset d k v) k = v := by
  induction d with
  | nil => simp [dset, dget]
  | cons p rest ih =>
      obtain ⟨k', v'⟩ := p
      by_cases h : k' = k <;> simp [dset, dget, h, ih]

theorem dget_dset_ne (d : Dict) (k k' : String) (v : Val) (h : k' ≠ k) :
    dget (dset d k v) k' = dget d k' := by
  induction d with
  | nil =>
      simp only [dset, dget]
      rw [if_neg (fun hh : k = k' => h hh.symm)]
  | cons p rest ih =>
      obtain ⟨k0, v0⟩ := p
      simp only [dset]
      by_cases h0 : k0 = k
      · subst h0
        simp only [if_pos rfl, dget]
        rw [if_neg (fun hh : k0 = k' => h hh.symm), if_neg (fun hh : k0 = k' => h hh.symm)]
      · simp only [if_neg h0, dget, ih]

theorem dset_dset_same (d : Dict) (k : String) (v w : Val) :
    dset (dset d k v) k w = dset d k w := by
  induction d with
  | nil => simp [dset]
  | cons p rest ih =>
      obtain ⟨k0, v0⟩ := p
      by_cases h0 : k0 = k <;> simp [dset, h0, ih]

theorem dget_of_dmem_false (d : Dict) (k : String) (h : dmem d k = false) :
    dget d k = .none := by
  induction d with
  | nil => simp [dget]
  | cons p rest ih =>
      obtain ⟨k0, v0⟩ := p
      by_cases h0 : k0 = k
      · simp [dmem, h0] at h
      · simp [dmem, h0] at h
        simp [dget, h0, ih h]

theorem dmem_dset (d : Dict) (k : String) (v : Val) : dmem (dset d k v) k = true := by
  induction d with
  | nil => simp [dset, dmem]
  | cons p rest ih =>
      obtain ⟨k0, v0⟩ := p
      by_cases h0 : k0 = k <;> simp [dset, dmem, h0, ih]

theorem normalize_non_insert (e : Dict) (h : ¬ dget e "type" = .str "insert_case") :
    _normalize_entry e = e := by
  simp [_normalize_entry, h]

theorem dget_normalize_ne (e : Dict) (k : String) (hk : k ≠ "created_by") :
    dget (_normalize_entry e) k = dget e k := by
  unfold _normalize_entry
  by_cases ht : dget e "type" = .str "insert_case"
  · by_cases hc : (dget e "created_by").truthy
    · simp [ht, hc]
    · simp only [ht, if_true, hc, Bool.false_eq_true, if_false]
      exact dget_dset_ne e "created_by" k _ hk
  · simp [ht]

theorem dget_normalize_type (e : Dict) :
    dget (_normalize_entry e) "type" = dget e "type" :=
  dget_normalize_ne e "type" (by decide)

/-- C1 (counterexample): in the queue `[c1A, c1B, c1C]`, applying `c1B`
raises a permanent (non-busy/locked) error, yet after the pass the
persisted queue is `[c1B]`, not empty — the permanently-failing entry is
kept for later passes, contradicting the claim that it is dropped. -/
theorem c1_queue_not_emptied :
    ((_apply_buffer_entry c1db c1A).res = .ok ()
      ∧ (_apply_buffer_entry (_apply_buffer_entry c1db c1A).db c1B).res = Except.error "id"
      ∧ _is_transient "id" = false
      ∧ (_apply_buffer_entry
          ((_apply_buffer_entry (_apply_buffer_entry c1db c1A).db c1B).db) c1C).res = .ok ())
    ∧ (sync_buffer_once c1db c1fs).1.1 = 2
    ∧ ¬ (sync_buffer_once c1db c1fs).2.2.live = some (FileContent.entriesDoc [])
    ∧ (sync_buffer_once c1db c1fs).2.2.live = some (FileContent.entriesDoc [c1B]) := by
  decide

/-- C1 (amended): for a queue `[A, B, C]` where `A` and `C` apply cleanly
and `B` fails with a non-busy/locked error, `sync_buffer_once` applies `A`
and `C` (`applied_count = 2`) but the permanently-failing entry `B` is
retained: it is counted as failed and persisted back, so the queue after
the pass equals `[B]`, not the empty queue. -/
theorem sync_permanent_failure_kept (db : DB) (fs : FS) (A B C : Dict) (msg : String)
    (hfs : fs.live = some (.entriesDoc [A, B, C]))
    (hA : (_apply_buffer_entry db A).res = .ok ())
    (hB : (_apply_buffer_entry (_apply_buffer_entry db A).db B).res = .error msg)
    (htr : _is_transient msg = false)
    (hC : (_apply_buffer_entry
        ((_apply_buffer_entry (_apply_buffer_entry db A).db B).db) C).res = .ok ()) :
    (sync_buffer_once db fs).1 = (2, 1)
    ∧ (sync_buffer_once db fs).2.2.live = some (.entriesDoc [B]) := by
  obtain ⟨live, bak⟩ := fs
  simp only at hfs
  subst hfs
  simp only [sync_buffer_once, _load_buffer, List.isEmpty, syncLoop, hA, hB, hC, htr,
    Bool.false_eq_true, if_false, _save_buffer]
  exact ⟨by simp, by simp⟩

theorem sync_permanent_failure_kept_witness :
    (sync_buffer_once c1db c1fs).1 = (2, 1)
    ∧ (sync_buffer_once c1db c1fs).2.2.live = some (FileContent.entriesDoc [c1B]) :=
  sync_permanent_failure_kept c1db c1fs c1A c1B c1C "id" rfl rfl rfl (by decide) rfl

end Buffer

namespace Buffer

/-- C2 (counterexample): the queue file written by `_save_buffer` is a bare
JSON array (no envelope, no digest); mutating the serialized entries —
from `[c2orig]` to `[c2mut]` — leaves a file that the next `_load_buffer`
trusts wholesale: it returns the mutated entries (not an empty sequence)
and creates no quarantine file. -/
theorem c2_tampered_entries_trusted :
    (_save_buffer [c2orig] ⟨Option.none, Option.none⟩).live =
      some (FileContent.entriesDoc [c2orig])
    ∧ ¬ c2mut = c2orig
    ∧ _load_buffer c2fsT = ([c2mut], c2fsT)
    ∧ ¬ (_load_buffer c2fsT).1 = []
    ∧ (_load_buffer c2fsT).2.bak = Option.none := by
  decide

/-- C2 (amended): the queue file holds a bare JSON array of entries with
no digest.  `_load_buffer` returns an empty sequence and quarantines the
original content under the `.json.bak` name only when the file cannot be
parsed as JSON; a missing file yields an empty sequence, and any parsable
content is returned as-is, without integrity checking. -/
theorem load_trusts_parsable (fs : FS) :
    (∀ raw, fs.live = some (.invalid raw) →
        _load_buffer fs = ([], ⟨Option.none, some (.invalid raw)⟩))
    ∧ (∀ es, fs.live = some (.entriesDoc es) → _load_buffer fs = (es, fs))
    ∧ (fs.live = Option.none → _load_buffer fs = ([], fs)) := by
  obtain ⟨live, bak⟩ := fs
  refine ⟨fun raw h => ?_, fun es h => ?_, fun h => ?_⟩ <;>
    (simp only at h; subst h; rfl)

theorem load_trusts_parsable_witness :
    _load_buffer ⟨some (FileContent.invalid "not json"), Option.none⟩ =
      ([], ⟨Option.none, some (FileContent.invalid "not json")⟩) :=
  (load_trusts_parsable ⟨some (FileContent.invalid "not json"), Option.none⟩).1 "not json" rfl

/-- C3: for a queue `[A, B, C]` where `A` applies cleanly and `B` raises
an error classified as busy/locked, `sync_buffer_once` stops at `B`,
reports `applied_count = 1` with 2 entries remaining, persists exactly
`[B, C]` in original order, and leaves the store exactly as it was after
applying `A` — `C` is never attempted in that pass. -/
theorem sync_transient_stops (db : DB) (fs : FS) (A B C : Dict) (msg : String)
    (hfs : fs.live = some (.entriesDoc [A, B, C]))
    (hA : (_apply_buffer_entry db A).res = .ok ())
    (hB : (_apply_buffer_entry (_apply_buffer_entry db A).db B).res = .error msg)
    (htr : _is_transient msg = true) :
    (sync_buffer_once db fs).1 = (1, 2)
    ∧ (sync_buffer_once db fs).2.2.live = some (.entriesDoc [B, C])
    ∧ (sync_buffer_once db fs).2.1 = (_apply_buffer_entry db A).db := by
  obtain ⟨live, bak⟩ := fs
  simp only at hfs
  subst hfs
  simp only [sync_buffer_once, _load_buffer, List.isEmpty, syncLoop, hA, hB, htr,
    if_true, _save_buffer]
  refine ⟨rfl, rfl, rfl⟩

theorem sync_transient_stops_witness :
    (sync_buffer_once c3db c3fs).1 = (1, 2)
    ∧ (sync_buffer_once c3db c3fs).2.2.live = some (FileContent.entriesDoc [c3B, c3C])
    ∧ (sync_buffer_once c3db c3fs).2.1 = (_apply_buffer_entry c3db c3A).db :=
  sync_transient_stops c3db c3fs c3A c3B c3C "database is locked" rfl rfl rfl (by decide)

/-- C4 (counterexample): an `insert_case` entry missing both `clinic` and
`device_name` is not failed fast by any validation — no `ValidationError`
exists anywhere in the module: the apply issues the introspection and
then an `INSERT` carrying NULL values for every column, which the store
itself rejects with its NOT NULL constraint on `clinic` (a permanent
`IntegrityError` raised only after the store was touched); and an
`update_case` entry missing `id` (with an applicable field) issues the
schema introspection before failing with `KeyError`. -/
theorem c4_no_validation_error :
    ((_apply_buffer_entry c4db c4insert).res =
        Except.error "NOT NULL constraint failed: cases.clinic"
      ∧ (_apply_buffer_entry c4db c4insert).ops =
          [Op.introspectCases,
            Op.insertCases
              ["clinic", "device_name", "wave_number", "submitter", "service_provider",
               "status", "reason", "date_submitted", "date_returned", "notes", "created_by"]
              [Val.none, Val.none, Val.none, Val.none, Val.none, Val.none, Val.none,
               Val.none, Val.none, Val.none, Val.none]]
      ∧ (_apply_buffer_entry c4db c4insert).db = c4db
      ∧ _is_transient "NOT NULL constraint failed: cases.clinic" = false)
    ∧ ((_apply_buffer_entry c4db c4update).res = Except.error "id"
      ∧ (_apply_buffer_entry c4db c4update).ops = [Op.introspectCases]) := by
  decide

/-- C4 (amended): `_apply_buffer_entry` performs no field pre-validation
and raises no `ValidationError`.  A `delete_case` entry missing `id` fails
with `KeyError` before any statement reaches the store; an `update_case`
entry missing `id` introspects the schema first and then either succeeds
as a no-op (when no `SET` field applies) or fails with `KeyError`; an
`insert_case` entry missing `clinic` is not rejected by the buffer code
at all: against the repository schema on an uncontended store the
`INSERT` is issued with a NULL `clinic` value, and it is the store's
NOT NULL constraint that rejects it with an `IntegrityError` — a
permanent failure raised after the store was touched, with the
transaction rolled back. -/
theorem apply_no_prevalidation (db : DB) (e : Dict) :
    (dget e "type" = .str "delete_case" → dmem e "id" = false →
        _apply_buffer_entry db e = ⟨.error "id", db, []⟩)
    ∧ (dget e "type" = .str "update_case" → dmem e "id" = false →
        _apply_buffer_entry db e = ⟨.ok (), db, [Op.introspectCases]⟩ ∨
        _apply_buffer_entry db e = ⟨.error "id", db, [Op.introspectCases]⟩)
    ∧ (dget e "type" = .str "insert_case" → dget e "clinic" = Val.none →
        db.casesCols = standardCols → db.notNullCols = standardNotNull →
        db.insertLocked = false →
        (_apply_buffer_entry db e).res =
          Except.error "NOT NULL constraint failed: cases.clinic"
        ∧ (_apply_buffer_entry db e).db = db
        ∧ (_apply_buffer_entry db e).ops =
            [Op.introspectCases,
             Op.insertCases
               (_insert_cols_vals standardCols "device_name" (_normalize_entry e)).1
               (_insert_cols_vals standardCols "device_name" (_normalize_entry e)).2]) := by
  refine ⟨fun htype hid => ?_, fun htype hid => ?_,
    fun htype hclinic hcols hnn hlock => ?_⟩
  · have hnorm : _normalize_entry e = e := normalize_non_insert e (by simp [htype])
    simp [_apply_buffer_entry, hnorm, htype, hid]
  · have hnorm : _normalize_entry e = e := normalize_non_insert e (by simp [htype])
    simp only [_apply_buffer_entry, hnorm, htype]
    simp only [show ¬ Val.str "update_case" = Val.str "insert_case" by decide, if_false,
      if_true, hid, Bool.false_eq_true]
    repeat' split
    all_goals first | (left; rfl) | (right; rfl)
  · have htype' : dget (_normalize_entry e) "type" = .str "insert_case" := by
      rw [dget_normalize_type, htype]
    have hclinic' : dget (_normalize_entry e) "clinic" = Val.none := by
      rw [dget_normalize_ne e "clinic" (by decide), hclinic]
    have hdc : _device_col standardCols = some "device_name" := by decide
    simp only [_apply_buffer_entry, htype', if_true, hcols, hlock, hnn, hdc]
    have hne : ((_insert_cols_vals standardCols "device_name"
        (_normalize_entry e)).1).isEmpty = false := by
      simp [_insert_cols_vals, _desired_order, standardCols]
    simp only [hne, Bool.false_eq_true, if_false]
    simp [_insert_cols_vals, _desired_order, standardCols, standardNotNull, hclinic',
      List.find?]

theorem apply_no_prevalidation_witness :
    _apply_buffer_entry c4db c4delete = ⟨Except.error "id", c4db, []⟩
    ∧ (_apply_buffer_entry c4db c4update = ⟨Except.ok (), c4db, [Op.introspectCases]⟩
        ∨ _apply_buffer_entry c4db c4update = ⟨Except.error "id", c4db, [Op.introspectCases]⟩)
    ∧ (_apply_buffer_entry c4db c4insert).res =
        Except.error "NOT NULL constraint failed: cases.clinic" :=
  ⟨(apply_no_prevalidation c4db c4delete).1 rfl rfl,
   (apply_no_prevalidation c4db c4update).2.1 rfl rfl,
   ((apply_no_prevalidation c4db c4insert).2.2 rfl rfl rfl rfl rfl).1⟩

/-- C5: saving any ordered list of entries and loading it back returns the
same list (and leaves the just-saved file in place): the round-trip
`load(save(entries)) = entries` holds for every list and every prior
file-system state. -/
theorem save_load_roundtrip (entries : List Dict) (fs : FS) :
    _load_buffer (_save_buffer entries fs) = (entries, _save_buffer entries fs) := rfl

end Buffer

namespace Buffer

/-- C6 (counterexample): normalizing an `insert_case` entry whose fallback
fields are all absent does not leave the actor field absent — it sets
`created_by` to `None`, so the key is present (with a null value) in the
normalized entry. -/
theorem c6_created_by_not_absent :
    _normalize_entry c6bare = [("type", Val.str "insert_case"), ("created_by", Val.none)]
    ∧ dmem (_normalize_entry c6bare) "created_by" = true := by
  decide

/-- C6 (amended): for an `insert_case` entry with no (truthy) actor field,
normalization sets `created_by` to the Python `or`-chain over the fallback
fields `submitter`, `username`, `user`, `owner`: the first truthy value
wins, and when every fallback is absent or empty the field is set to the
last fallback's value (`None` when absent) — the key becomes present
rather than staying absent.  `created_by` is the only key whose value
changes, and normalization never rejects an entry (it is total). -/
theorem normalize_derives_created_by (e : Dict)
    (h1 : dget e "type" = .str "insert_case")
    (h2 : (dget e "created_by").truthy = false) :
    dget (_normalize_entry e) "created_by" =
      pyOr (dget e "submitter") (pyOr (dget e "username")
        (pyOr (dget e "user") (dget e "owner")))
    ∧ dmem (_normalize_entry e) "created_by" = true
    ∧ ∀ k, ¬ k = "created_by" → dget (_normalize_entry e) k = dget e k := by
  unfold _normalize_entry
  simp only [h1, if_true, h2, Bool.false_eq_true, if_false]
  exact ⟨dget_dset_same _ _ _, dmem_dset _ _ _, fun k hk => dget_dset_ne _ _ _ _ hk⟩

theorem normalize_derives_created_by_witness :
    dget (_normalize_entry c6sub) "created_by" =
      pyOr (dget c6sub "submitter") (pyOr (dget c6sub "username")
        (pyOr (dget c6sub "user") (dget c6sub "owner")))
    ∧ dmem (_normalize_entry c6sub) "created_by" = true :=
  ⟨(normalize_derives_created_by c6sub rfl rfl).1,
   (normalize_derives_created_by c6sub rfl rfl).2.1⟩

/-- C7: normalization is idempotent on every entry shape:
`normalize (normalize e) = normalize e`, so an already-normalized entry
passes through unchanged. -/
theorem normalize_idempotent (e : Dict) :
    _normalize_entry (_normalize_entry e) = _normalize_entry e := by
  unfold _normalize_entry
  by_cases ht : dget e "type" = .str "insert_case"
  · by_cases hc : (dget e "created_by").truthy
    · simp [ht, hc]
    · simp only [ht, hc, if_true, if_false, Bool.false_eq_true]
      have hty : dget (dset e "created_by"
          (pyOr (dget e "submitter") (pyOr (dget e "username")
            (pyOr (dget e "user") (dget e "owner"))))) "type" = dget e "type" :=
        dget_dset_ne _ _ _ _ (by decide)
      have hs : ∀ k : String, k ≠ "created_by" →
          dget (dset e "created_by"
            (pyOr (dget e "submitter") (pyOr (dget e "username")
              (pyOr (dget e "user") (dget e "owner"))))) k = dget e k :=
        fun k hk => dget_dset_ne _ _ _ _ hk
      have hcreated : dget (dset e "created_by"
          (pyOr (dget e "submitter") (pyOr (dget e "username")
            (pyOr (dget e "user") (dget e "owner"))))) "created_by" =
          pyOr (dget e "submitter") (pyOr (dget e "username")
            (pyOr (dget e "user") (dget e "owner"))) :=
        dget_dset_same _ _ _
      simp only [hty, ht, if_true, hcreated,
        hs "submitter" (by decide), hs "username" (by decide),
        hs "user" (by decide), hs "owner" (by decide)]
      by_cases hv : (pyOr (dget e "submitter") (pyOr (dget e "username")
          (pyOr (dget e "user") (dget e "owner")))).truthy
      · simp [hv]
      · simp [hv, dset_dset_same]
  · simp [ht]

/-- C8: an `update_case` entry for which the dynamic SET clause — built
from the fields present both in the entry and in the store's current
column set (`status`, `date_returned`, and a non-null `closed_by`) — is
empty applies as a no-op success: the result is `ok`, the store state is
unchanged, and the only statement issued is the read-only schema
introspection — no `UPDATE` (or any other mutation) reaches the store,
and the entry's `id` is never even read.  The three hypotheses state
exactly that each candidate field is missing from the entry or from the
schema, i.e. that the entry-field/column intersection leaves nothing to
update. -/
theorem update_nothing_applicable_noop (db : DB) (e : Dict)
    (htype : dget e "type" = .str "update_case")
    (h1 : ¬("status" ∈ db.casesCols ∧ dmem e "status" = true))
    (h2 : ¬("date_returned" ∈ db.casesCols ∧ dmem e "date_returned" = true))
    (h3 : ¬("closed_by" ∈ db.casesCols ∧ ¬ dget e "closed_by" = Val.none)) :
    _apply_buffer_entry db e = ⟨.ok (), db, [Op.introspectCases]⟩ := by
  have hnorm : _normalize_entry e = e := normalize_non_insert e (by simp [htype])
  simp [_apply_buffer_entry, hnorm, htype, h1, h2, h3]

theorem update_nothing_applicable_noop_witness :
    _apply_buffer_entry c8db c8e = ⟨Except.ok (), c8db, [Op.introspectCases]⟩ :=
  update_nothing_applicable_noop c8db c8e rfl (by decide) (by decide) (by decide)

/-- C9 (counterexample): against a store whose `audit_log` table exists
but lacks the columns the audit insert names, applying a valid
`delete_case` entry fails — and because the delete and the audit insert
run in one transaction, the rollback undoes the delete: the case row is
still present afterwards.  The audit failure therefore does block the
delete, contradicting the best-effort claim. -/
theorem c9_audit_failure_blocks_delete :
    (_apply_buffer_entry c9db c9e).res =
      Except.error "table audit_log has no column named entity"
    ∧ (_apply_buffer_entry c9db c9e).db.cases = [[("id", Val.int 1)]]
    ∧ _is_transient "table audit_log has no column named entity" = false := by
  decide

/-- C9 (amended): the audit record of the delete branch is not
best-effort: delete and audit insert share one `with conn:` transaction,
so whenever the audit insert fails (here: the `audit_log` table exists but
lacks a required column), the whole transaction rolls back — the store is
unchanged (the delete is undone) and the entry's application fails with a
permanent (non-busy/locked) error. -/
theorem delete_audit_failure_rolls_back (db : DB) (e : Dict) (acols : List String)
    (htype : dget e "type" = .str "delete_case")
    (hid : dmem e "id" = true)
    (hacols : db.auditCols = some acols)
    (hmiss : acols.contains "entity" = false) :
    (_apply_buffer_entry db e).db = db
    ∧ ∃ msg, (_apply_buffer_entry db e).res = Except.error msg
        ∧ _is_transient msg = false := by
  have hnorm : _normalize_entry e = e := normalize_non_insert e (by simp [htype])
  cases hca : acols.contains "action"
  · simp only [_apply_buffer_entry, hnorm, htype, hid, hacols, List.find?, hca]
    refine ⟨by simp, "table audit_log has no column named action", by simp, by decide⟩
  · simp only [_apply_buffer_entry, hnorm, htype, hid, hacols, List.find?, hca, hmiss]
    refine ⟨by simp, "table audit_log has no column named entity", by simp, by decide⟩

theorem delete_audit_failure_rolls_back_witness :
    (_apply_buffer_entry c9db c9e).db = c9db :=
  (delete_audit_failure_rolls_back c9db c9e ["id", "ts", "action"] rfl rfl rfl (by decide)).1

/-- C10: `enqueue_write` never mutates the caller's payload (nor any other
pre-existing dict object): every heap cell allocated before the call holds
the same dict afterwards — normalization, including the derived
`created_by`, is applied only to the fresh copy made by `dict(payload)` —
and the queue persisted by the call is the previously loaded queue plus
the normalized copy of the payload. -/
theorem enqueue_write_preserves_heap (s : PState) (r r' : Nat) (h : r' < s.heap.length) :
    (enqueue_write r s).heap[r']? = s.heap[r']?
    ∧ (enqueue_write r s).fs =
        _save_buffer ((_load_buffer s.fs).1 ++ [_normalize_entry (heapGet s.heap r)])
          (_load_buffer s.fs).2 := by
  constructor
  · show ((s.heap ++ [heapGet s.heap r]).set s.heap.length
        (_normalize_entry (heapGet (s.heap ++ [heapGet s.heap r]) s.heap.length)))[r']? =
        s.heap[r']?
    rw [List.getElem?_set_ne (by omega)]
    exact List.getElem?_append_left h
  · have hcell : heapGet (s.heap ++ [heapGet s.heap r]) s.heap.length = heapGet s.heap r := by
      simp [heapGet]
    show _save_buffer ((_load_buffer s.fs).1 ++
        [heapGet ((s.heap ++ [heapGet s.heap r]).set s.heap.length
          (_normalize_entry (heapGet (s.heap ++ [heapGet s.heap r]) s.heap.length)))
          s.heap.length]) (_load_buffer s.fs).2 = _
    rw [hcell]
    have hget : heapGet ((s.heap ++ [heapGet s.heap r]).set s.heap.length
        (_normalize_entry (heapGet s.heap r))) s.heap.length =
        _normalize_entry (heapGet s.heap r) := by
      have hlen : s.heap.length < (s.heap ++ [heapGet s.heap r]).length := by
        simp
      simp [heapGet, List.getElem?_set_eq_of_lt _ hlen]
    rw [hget]

theorem enqueue_write_preserves_heap_witness :
    (enqueue_write 0 c10s).heap[0]? = c10s.heap[0]?
    ∧ (enqueue_write 0 c10s).fs =
        _save_buffer ((_load_buffer c10s.fs).1 ++ [_normalize_entry (heapGet c10s.heap 0)])
          (_load_buffer c10s.fs).2 :=
  enqueue_write_preserves_heap c10s 0 0 (by decide)

end Buffer
